import Mathlib

/-!
Verification development for the EM2RS stepper-motor controller client
library (Rust crate `em2rs-rs`).  The register map (`src/registers.rs`),
the shared domain types (`src/types.rs`) and both clients
(`src/client.rs`, asynchronous; `src/sync.rs`, blocking) are shallowly
embedded.  Register operations issued to the Modbus channel are recorded
as a trace; the channel is modelled as an environment deciding, per
transaction, whether it succeeds and which data a read returns.
-/

namespace Em2rs

/-! ### Register map (src/registers.rs) -/

namespace registers

def PULSE_PER_REV : Nat := 0x0001
def MOTOR_DIRECTION : Nat := 0x0007
def MOTOR_INDUCTANCE : Nat := 0x0009
def FORCED_ENA : Nat := 0x000F

def SI1 : Nat := 0x0145

def DIGITAL_INPUT_STATUS : Nat := 0x0179

def PEAK_CURRENT : Nat := 0x0191

def VERSION_INFORMATION : Nat := 0x01FF

def MOTION_STATUS : Nat := 0x1003
def CONTROL_WORD : Nat := 0x1801
def CURRENT_ALARM : Nat := 0x2203

def PR_GLOBAL_CTRL_FCT : Nat := 0x6000
def PR_CTRL : Nat := 0x6002
def SOFT_LIMIT_P_H : Nat := 0x6006
def SOFT_LIMIT_P_L : Nat := 0x6007
def SOFT_LIMIT_N_H : Nat := 0x6008
def SOFT_LIMIT_N_L : Nat := 0x6009

def HOME_MODE : Nat := 0x600A
def HOME_SWITCH_POS_HIGH : Nat := 0x600B
def HOME_SWITCH_POS_LOW : Nat := 0x600C
def HOMING_STOP_POS_HIGH : Nat := 0x600D
def HOMING_STOP_POS_LOW : Nat := 0x600E
def HOMING_HIGH_VELOCITY : Nat := 0x600F
def HOMING_LOW_VELOCITY : Nat := 0x6010
def HOMING_ACC : Nat := 0x6011
def HOMING_DEC : Nat := 0x6012

def PATH0_BASE : Nat := 0x6200
def PATH1_BASE : Nat := 0x6208
def PATH2_BASE : Nat := 0x6210
def PATH3_BASE : Nat := 0x6218
def PATH4_BASE : Nat := 0x6220
def PATH5_BASE : Nat := 0x6228
def PATH6_BASE : Nat := 0x6230
def PATH7_BASE : Nat := 0x6238
def PATH8_BASE : Nat := 0x6240

def PATH_CTRL_OFFSET : Nat := 0
def PATH_POSITION_H_OFFSET : Nat := 1
def PATH_POSITION_L_OFFSET : Nat := 2
def PATH_VELOCITY_OFFSET : Nat := 3
def PATH_ACC_OFFSET : Nat := 4
def PATH_DEC_OFFSET : Nat := 5
def PATH_PAUSE_TIME_OFFSET : Nat := 6

namespace flags

def SI_NC_INCR : Nat := 0x0080

def MS_FAULT : Nat := 0x0001
def MS_ENABLE : Nat := 0x0002
def MS_RUNNING : Nat := 0x0004
def MS_CMD_COMPLETE : Nat := 0x0010
def MS_PATH_COMPLETE : Nat := 0x0020
def MS_HOMING_COMPLETE : Nat := 0x0040

end flags

/-- Path id to base register lookup, `get_path_base` of src/registers.rs.
Path ids are u8 values; any id other than 0 to 8 yields `none`. -/
def get_path_base (path_id : Nat) : Option Nat :=
  match path_id with
  | 0 => some PATH0_BASE
  | 1 => some PATH1_BASE
  | 2 => some PATH2_BASE
  | 3 => some PATH3_BASE
  | 4 => some PATH4_BASE
  | 5 => some PATH5_BASE
  | 6 => some PATH6_BASE
  | 7 => some PATH7_BASE
  | 8 => some PATH8_BASE
  | _ => none

end registers

/-! ### Domain types (src/types.rs) -/

/-- Errors of the library (`Em2rsError` in src/types.rs).  Transport
failures of the four Modbus variants are collapsed into `modbus`,
carrying the index of the failed transaction; the validation variants
carry the offending value exactly as in the source. -/
inductive Em2rsError where
  | modbus (txn : Nat)
  | invalidPath (id : Nat)
  | invalidDigitalInput (n : Nat)
deriving DecidableEq, Repr

inductive Direction where
  | Clockwise
  | CounterClockwise
deriving DecidableEq, Repr

def Direction.toWord : Direction → Nat
  | .Clockwise => 0x00
  | .CounterClockwise => 0x01

inductive DigitalInputFunction where
  | Invalid
  | AlarmClearing
  | Enable
  | TriggerCmd
  | TriggerHoming
  | Emergency
  | JogPositive
  | JogNegative
  | Pot
  | Not
  | Org
  | Add0
  | Add1
  | Add2
  | Add3
  | JogVelocity
deriving DecidableEq, Repr

def DigitalInputFunction.toWord : DigitalInputFunction → Nat
  | .Invalid => 0x00
  | .AlarmClearing => 0x07
  | .Enable => 0x08
  | .TriggerCmd => 0x20
  | .TriggerHoming => 0x21
  | .Emergency => 0x22
  | .JogPositive => 0x23
  | .JogNegative => 0x24
  | .Pot => 0x25
  | .Not => 0x26
  | .Org => 0x27
  | .Add0 => 0x28
  | .Add1 => 0x29
  | .Add2 => 0x2A
  | .Add3 => 0x2B
  | .JogVelocity => 0x2C

inductive ControlWord where
  | ResetCurrentAlarm
  | ResetHistoryAlarm
  | SaveParamEeprom
  | ParamReset
  | FactoryReset
  | SaveMappingEeprom
  | JogClockwise
  | JogCounterClockwise
deriving DecidableEq, Repr

def ControlWord.toWord : ControlWord → Nat
  | .ResetCurrentAlarm => 0x1111
  | .ResetHistoryAlarm => 0x1122
  | .SaveParamEeprom => 0x2211
  | .ParamReset => 0x2222
  | .FactoryReset => 0x2233
  | .SaveMappingEeprom => 0x2244
  | .JogClockwise => 0x4001
  | .JogCounterClockwise => 0x4002

inductive HomingMethod where
  | LimitSwitch
  | HomeSwitch
deriving DecidableEq, Repr

def HomingMethod.toWord : HomingMethod → Nat
  | .LimitSwitch => 0x00
  | .HomeSwitch => 0x04

inductive PrControlCommand where
  | RunThePath
  | Homing
  | ManualZero
  | QuickStop
deriving DecidableEq, Repr

def PrControlCommand.toWord : PrControlCommand → Nat
  | .RunThePath => 0x10
  | .Homing => 0x20
  | .ManualZero => 0x21
  | .QuickStop => 0x40

inductive PathMotionType where
  | NoAction
  | PositionPositioning
  | VelocityMovement
  | Homing
deriving DecidableEq, Repr

def PathMotionType.toWord : PathMotionType → Nat
  | .NoAction => 0x00
  | .PositionPositioning => 0x01
  | .VelocityMovement => 0x02
  | .Homing => 0x03

structure MotionStatus where
  raw : Nat
deriving DecidableEq, Repr

def MotionStatus.is_path_complete (s : MotionStatus) : Bool :=
  s.raw &&& registers.flags.MS_PATH_COMPLETE != 0

def MotionStatus.is_homing_complete (s : MotionStatus) : Bool :=
  s.raw &&& registers.flags.MS_HOMING_COMPLETE != 0

structure CurrentAlarm where
  raw : Nat
deriving DecidableEq, Repr

/-- Homing configuration (`HomingConfig` in src/types.rs).  All u8, u16
and u32 fields are carried as `Nat`. -/
structure HomingConfig where
  input_no : Nat
  function : DigitalInputFunction
  normally_closed : Bool
  direction : Direction
  move_to_pos_after : Bool
  method : HomingMethod
  position : Nat
  position_stop : Nat
  high_velocity : Nat
  low_velocity : Nat
  acceleration : Nat
  deceleration : Nat
deriving DecidableEq, Repr

/-- Path configuration (`PathConfig` in src/types.rs). -/
structure PathConfig where
  path_id : Nat
  absolute_position : Bool
  position : Nat
  velocity : Nat
  acceleration : Nat
  deceleration : Nat
  pause_time : Nat
deriving DecidableEq, Repr

/-- Constructor `PathConfig::new` of src/types.rs: validates the path id
and fills in the documented defaults. -/
def PathConfig.new (path_id : Nat) : Except Em2rsError PathConfig :=
  if path_id > 8 then
    .error (.invalidPath path_id)
  else
    .ok { path_id := path_id
          absolute_position := true
          position := 0
          velocity := 100
          acceleration := 100
          deceleration := 100
          pause_time := 0 }

/-- Stepper motor configuration (`StepperConfig` in src/types.rs).  The
`phase_current` field is an `f32` in the source; it is carried here at an
abstract type `F` so that both clients can be compared without modelling
IEEE-754 arithmetic. -/
structure StepperConfig (F : Type) where
  slave_id : Nat
  pulse_per_rev : Nat
  direction : Direction
  phase_current : F
  inductance : Nat

/-! ### Channel model

A register operation is either a single-register write or a holding
register read.  The channel environment maps the index of a transaction
to its outcome: `none` means the transport reports a failure, `some data`
means success, with `data` the words a read returns (writes ignore it).
Successful operations are appended to the trace; a failed transaction
leaves the trace unchanged (the device did not apply it). -/

inductive Op where
  | write (addr value : Nat)
  | read (addr count : Nat)
deriving DecidableEq, Repr

def Env : Type := Nat → Option (List Nat)

structure St where
  env : Env
  txn : Nat
  trace : List Op

/-- Client computations: state threading plus the first error, exactly
the shape of Rust `Result` with the question-mark operator. -/
def M (α : Type) : Type := St → Except Em2rsError α × St

instance : Monad M where
  pure a := fun s => (.ok a, s)
  bind x f := fun s =>
    match x s with
    | (.ok a, s1) => f a s1
    | (.error e, s1) => (.error e, s1)

def M.throw {α : Type} (e : Em2rsError) : M α := fun s => (.error e, s)

/-- Run a client computation against an environment, starting from an
empty trace. -/
def M.run {α : Type} (m : M α) (env : Env) : Except Em2rsError α × St :=
  m { env := env, txn := 0, trace := [] }

/-- Result of a run. -/
def M.res {α : Type} (m : M α) (env : Env) : Except Em2rsError α :=
  (m.run env).1

/-- Trace of operations a run issued successfully. -/
def M.tr {α : Type} (m : M α) (env : Env) : List Op :=
  (m.run env).2.trace

/-- Writes of a trace, as address-value pairs. -/
def writesOf (t : List Op) : List (Nat × Nat) :=
  t.filterMap fun op =>
    match op with
    | .write a v => some (a, v)
    | .read _ _ => none

/-- Environment in which every transaction succeeds and every read
returns a single zero word. -/
def okEnv : Env := fun _ => some [0]

/-- Environment in which transaction `i` fails and all others succeed. -/
def failAt (i : Nat) : Env := fun j => if j = i then none else some [0]

/-- Environment whose first transaction is a read returning the single
word `v`; all transactions succeed. -/
def readEnv (v : Nat) : Env := fun j => if j = 0 then some [v] else some [0]

/-! ### Asynchronous client (src/client.rs)

Each method of `Em2rsClient` becomes a computation in `M`.  The `await`
suspension points have no observable effect on the issued register
operations and are dropped; `set_slave` addresses the transport and is
not a register transaction, so it does not appear in the trace. -/

namespace Async

/-- Method `write_register`: one single-register write transaction. -/
def write_register (addr value : Nat) : M Unit := fun s =>
  match s.env s.txn with
  | some _ => (.ok (), { s with txn := s.txn + 1, trace := s.trace ++ [.write addr value] })
  | none => (.error (.modbus s.txn), { s with txn := s.txn + 1 })

/-- Method `read_registers`: one holding-register read transaction. -/
def read_registers (addr count : Nat) : M (List Nat) := fun s =>
  match s.env s.txn with
  | some data => (.ok data, { s with txn := s.txn + 1, trace := s.trace ++ [.read addr count] })
  | none => (.error (.modbus s.txn), { s with txn := s.txn + 1 })

/-- Method `set_peak_current`.  The source computes the wire word from an
f32 as `(phase_current * 1.4 * 10.0) as u16`; the phase current is kept
at an abstract type `F` and `enc` stands for that floating-point encoding
(identical text in both source files), which is not modelled further. -/
def set_peak_current {F : Type} (enc : F → Nat) (phase_current : F) : M Unit :=
  write_register registers.PEAK_CURRENT (enc phase_current)

/-- Method `set_motor_inductance`: clamp at 10000, then write. -/
def set_motor_inductance (inductance : Nat) : M Unit :=
  let ind := min inductance 10000
  write_register registers.MOTOR_INDUCTANCE ind

/-- Method `init`: the fixed bring-up write sequence. -/
def init {F : Type} (enc : F → Nat) (config : StepperConfig F) : M Unit := do
  write_register registers.PULSE_PER_REV config.pulse_per_rev
  write_register registers.MOTOR_DIRECTION config.direction.toWord
  set_peak_current enc config.phase_current
  set_motor_inductance config.inductance

/-- Method `forced_enable_by_software`. -/
def forced_enable_by_software (enable : Bool) : M Unit :=
  let value := if enable then 0x0001 else 0x0000
  write_register registers.FORCED_ENA value

/-- Method `set_control_word`. -/
def set_control_word (command : ControlWord) : M Unit :=
  write_register registers.CONTROL_WORD command.toWord

/-- Method `save_param_eeprom`. -/
def save_param_eeprom : M Unit :=
  set_control_word ControlWord.SaveParamEeprom

/-- Method `param_reset`. -/
def param_reset : M Unit :=
  set_control_word ControlWord.ParamReset

/-- Method `factory_reset`. -/
def factory_reset : M Unit :=
  set_control_word ControlWord.FactoryReset

/-- Method `save_mapping_eeprom`. -/
def save_mapping_eeprom : M Unit :=
  set_control_word ControlWord.SaveMappingEeprom

/-- Method `jog_motor`. -/
def jog_motor (direction : Direction) : M Unit :=
  let command := match direction with
    | Direction.Clockwise => ControlWord.JogClockwise
    | Direction.CounterClockwise => ControlWord.JogCounterClockwise
  set_control_word command

/-- Method `configure_input`: validates the input number (1 to 7) and
writes the function code, plus the normally-closed increment, to the
register `SI1 + (input_no - 1) * 2`. -/
def configure_input (input_no : Nat) (function : DigitalInputFunction)
    (normally_closed : Bool) : M Unit :=
  if ¬ (1 ≤ input_no ∧ input_no ≤ 7) then
    M.throw (.invalidDigitalInput input_no)
  else
    let config := function.toWord + (if normally_closed then registers.flags.SI_NC_INCR else 0)
    let register := registers.SI1 + (input_no - 1) * 2
    write_register register config

/-- Method `get_input_status`.  Indexing `data[0]` of the source is
rendered as `headD 0`; the channel returns `count` words on success. -/
def get_input_status : M Nat := do
  let data ← read_registers registers.DIGITAL_INPUT_STATUS 1
  pure (data.headD 0)

/-- Method `get_motion_status`. -/
def get_motion_status : M MotionStatus := do
  let data ← read_registers registers.MOTION_STATUS 1
  pure ⟨data.headD 0⟩

/-- Method `is_path_completed`. -/
def is_path_completed : M Bool := do
  let status ← get_motion_status
  pure status.is_path_complete

/-- Method `is_homing_completed`. -/
def is_homing_completed : M Bool := do
  let status ← get_motion_status
  pure status.is_homing_complete

/-- Method `set_ctrg_effective_edge`: read-modify-write of bit 0 of the
PR global control register.  The u16 complement of `1 <<< 0` is written
as xor with 0xFFFF. -/
def set_ctrg_effective_edge (double_edge : Bool) : M Unit := do
  let data ← read_registers registers.PR_GLOBAL_CTRL_FCT 1
  let reg := data.headD 0
  let reg := if double_edge then reg ||| (1 <<< 0) else reg &&& (0xFFFF ^^^ (1 <<< 0))
  write_register registers.PR_GLOBAL_CTRL_FCT reg

/-- Method `soft_limit_control`: read-modify-write of bit 1. -/
def soft_limit_control (enable : Bool) : M Unit := do
  let data ← read_registers registers.PR_GLOBAL_CTRL_FCT 1
  let reg := data.headD 0
  let reg := if enable then reg ||| (1 <<< 1) else reg &&& (0xFFFF ^^^ (1 <<< 1))
  write_register registers.PR_GLOBAL_CTRL_FCT reg

/-- Method `set_soft_limit_max`: 32-bit split, high word first. -/
def set_soft_limit_max (mx : Nat) : M Unit := do
  let lsb := mx &&& 0xFFFF
  let msb := (mx >>> 16) &&& 0xFFFF
  write_register registers.SOFT_LIMIT_P_H msb
  write_register registers.SOFT_LIMIT_P_L lsb

/-- Method `set_soft_limit_min`: 32-bit split, high word first. -/
def set_soft_limit_min (mn : Nat) : M Unit := do
  let lsb := mn &&& 0xFFFF
  let msb := (mn >>> 16) &&& 0xFFFF
  write_register registers.SOFT_LIMIT_N_H msb
  write_register registers.SOFT_LIMIT_N_L lsb

/-- Method `homing_power_up_control`: read-modify-write of bit 2. -/
def homing_power_up_control (enable : Bool) : M Unit := do
  let data ← read_registers registers.PR_GLOBAL_CTRL_FCT 1
  let reg := data.headD 0
  let reg := if enable then reg ||| (1 <<< 2) else reg &&& (0xFFFF ^^^ (1 <<< 2))
  write_register registers.PR_GLOBAL_CTRL_FCT reg

/-- Method `set_ctrg_trigger_type`: read-modify-write of bit 4. -/
def set_ctrg_trigger_type (level_trigger : Bool) : M Unit := do
  let data ← read_registers registers.PR_GLOBAL_CTRL_FCT 1
  let reg := data.headD 0
  let reg := if level_trigger then reg ||| (1 <<< 4) else reg &&& (0xFFFF ^^^ (1 <<< 4))
  write_register registers.PR_GLOBAL_CTRL_FCT reg

/-- Method `configure_homing`: packs the homing mode word and writes it,
followed by the auxiliary fixed write of 0x0002 to 0x601A. -/
def configure_homing (direction : Direction) (move_to_pos : Bool)
    (method : HomingMethod) : M Unit := do
  let config := direction.toWord
    + (if move_to_pos then 0x0002 else 0x0000)
    + method.toWord
  write_register registers.HOME_MODE config
  write_register 0x601A 0x0002

/-- Method `set_homing_position`: 32-bit split, high word first. -/
def set_homing_position (position : Nat) : M Unit := do
  let lsb := position &&& 0xFFFF
  let msb := (position >>> 16) &&& 0xFFFF
  write_register registers.HOME_SWITCH_POS_HIGH msb
  write_register registers.HOME_SWITCH_POS_LOW lsb

/-- Method `set_homing_stop_position`: 32-bit split, high word first. -/
def set_homing_stop_position (position : Nat) : M Unit := do
  let lsb := position &&& 0xFFFF
  let msb := (position >>> 16) &&& 0xFFFF
  write_register registers.HOMING_STOP_POS_HIGH msb
  write_register registers.HOMING_STOP_POS_LOW lsb

/-- Method `set_homing_high_velocity`. -/
def set_homing_high_velocity (rpm : Nat) : M Unit :=
  write_register registers.HOMING_HIGH_VELOCITY rpm

/-- Method `set_homing_low_velocity`. -/
def set_homing_low_velocity (rpm : Nat) : M Unit :=
  write_register registers.HOMING_LOW_VELOCITY rpm

/-- Method `set_homing_acceleration`. -/
def set_homing_acceleration (acc : Nat) : M Unit :=
  write_register registers.HOMING_ACC acc

/-- Method `set_homing_deceleration`. -/
def set_homing_deceleration (dec : Nat) : M Unit :=
  write_register registers.HOMING_DEC dec

/-- Method `apply_homing_config`: the composite homing write sequence. -/
def apply_homing_config (config : HomingConfig) : M Unit := do
  configure_input config.input_no config.function config.normally_closed
  configure_homing config.direction config.move_to_pos_after config.method
  set_homing_position config.position
  set_homing_stop_position config.position_stop
  set_homing_high_velocity config.high_velocity
  set_homing_low_velocity config.low_velocity
  set_homing_acceleration config.acceleration
  set_homing_deceleration config.deceleration
  pure ()

/-- Method `set_pr_control`. -/
def set_pr_control (command : PrControlCommand) : M Unit :=
  write_register registers.PR_CTRL command.toWord

/-- Method `start_homing`. -/
def start_homing : M Unit :=
  set_pr_control PrControlCommand.Homing

/-- Method `start_path`: validates the path id and writes the command
base plus the id to the PR control register. -/
def start_path (path_id : Nat) : M Unit :=
  if path_id > 8 then
    M.throw (.invalidPath path_id)
  else
    let command_value := PrControlCommand.RunThePath.toWord + path_id
    write_register registers.PR_CTRL command_value

/-- Method `stop_motor`. -/
def stop_motor : M Unit :=
  set_pr_control PrControlCommand.QuickStop

/-- Method `manual_zero`. -/
def manual_zero : M Unit :=
  set_pr_control PrControlCommand.ManualZero

/-- Method `configure_path_motion`: packs the path control word of the
path with the given id.  The jump target nibble is `jump_to & 0x0F`
shifted left by 8, added only when `jump` is set. -/
def configure_path_motion (path_id : Nat) (motion_type : PathMotionType)
    (interrupt overlap absolute jump : Bool) (jump_to : Nat) : M Unit :=
  match registers.get_path_base path_id with
  | none => M.throw (.invalidPath path_id)
  | some base =>
    let config := motion_type.toWord
      + (if interrupt then 0x0010 else 0x0000)
      + (if overlap then 0x0020 else 0x0000)
      + (if absolute then 0x0000 else 0x0040)
    let config := if jump then config + (0x4000 + ((jump_to &&& 0x0F) <<< 8)) else config
    write_register base config

/-- Method `set_path_position`: 32-bit split at the path base, high word
first. -/
def set_path_position (path_id : Nat) (position : Nat) : M Unit :=
  match registers.get_path_base path_id with
  | none => M.throw (.invalidPath path_id)
  | some base => do
    let lsb := position &&& 0xFFFF
    let msb := (position >>> 16) &&& 0xFFFF
    write_register (base + registers.PATH_POSITION_H_OFFSET) msb
    write_register (base + registers.PATH_POSITION_L_OFFSET) lsb

/-- Method `set_path_velocity`. -/
def set_path_velocity (path_id : Nat) (rpm : Nat) : M Unit :=
  match registers.get_path_base path_id with
  | none => M.throw (.invalidPath path_id)
  | some base => write_register (base + registers.PATH_VELOCITY_OFFSET) rpm

/-- Method `set_path_acceleration`. -/
def set_path_acceleration (path_id : Nat) (acc : Nat) : M Unit :=
  match registers.get_path_base path_id with
  | none => M.throw (.invalidPath path_id)
  | some base => write_register (base + registers.PATH_ACC_OFFSET) acc

/-- Method `set_path_deceleration`. -/
def set_path_deceleration (path_id : Nat) (dec : Nat) : M Unit :=
  match registers.get_path_base path_id with
  | none => M.throw (.invalidPath path_id)
  | some base => write_register (base + registers.PATH_DEC_OFFSET) dec

/-- Method `set_path_pause_time`. -/
def set_path_pause_time (path_id : Nat) (ms : Nat) : M Unit :=
  match registers.get_path_base path_id with
  | none => M.throw (.invalidPath path_id)
  | some base => write_register (base + registers.PATH_PAUSE_TIME_OFFSET) ms

/-- Method `apply_path_config`: the composite path write sequence; the
pause time is written only when non-zero. -/
def apply_path_config (config : PathConfig) : M Unit := do
  configure_path_motion config.path_id PathMotionType.PositionPositioning
    false false config.absolute_position false 0
  set_path_position config.path_id config.position
  set_path_velocity config.path_id config.velocity
  set_path_acceleration config.path_id config.acceleration
  set_path_deceleration config.path_id config.deceleration
  if config.pause_time > 0 then
    set_path_pause_time config.path_id config.pause_time
  pure ()

/-- Method `get_version`. -/
def get_version : M Nat := do
  let data ← read_registers registers.VERSION_INFORMATION 1
  pure (data.headD 0)

/-- Method `get_current_alarm`. -/
def get_current_alarm : M CurrentAlarm := do
  let data ← read_registers registers.CURRENT_ALARM 1
  pure ⟨data.headD 0⟩

end Async

/-! ### Blocking client (src/sync.rs)

Each method of `Em2rsSyncClient` becomes a computation in `M`.  The
source file differs from src/client.rs only in suspension (thread
blocking instead of `await`) and in referring to `get_path_base` through
its module path; the issued register operations are transcribed from
src/sync.rs independently. -/

namespace Sync

/-- Sync method `write_register`: one single-register write transaction. -/
def write_register (addr value : Nat) : M Unit := fun s =>
  match s.env s.txn with
  | some _ => (.ok (), { s with txn := s.txn + 1, trace := s.trace ++ [.write addr value] })
  | none => (.error (.modbus s.txn), { s with txn := s.txn + 1 })

/-- Sync method `read_registers`: one holding-register read transaction. -/
def read_registers (addr count : Nat) : M (List Nat) := fun s =>
  match s.env s.txn with
  | some data => (.ok data, { s with txn := s.txn + 1, trace := s.trace ++ [.read addr count] })
  | none => (.error (.modbus s.txn), { s with txn := s.txn + 1 })

/-- Sync method `set_peak_current`.  The source computes the wire word from an
f32 as `(phase_current * 1.4 * 10.0) as u16`; the phase current is kept
at an abstract type `F` and `enc` stands for that floating-point encoding
(identical text in both source files), which is not modelled further. -/
def set_peak_current {F : Type} (enc : F → Nat) (phase_current : F) : M Unit :=
  write_register registers.PEAK_CURRENT (enc phase_current)

/-- Sync method `set_motor_inductance`: clamp at 10000, then write. -/
def set_motor_inductance (inductance : Nat) : M Unit :=
  let ind := min inductance 10000
  write_register registers.MOTOR_INDUCTANCE ind

/-- Sync method `init`: the fixed bring-up write sequence. -/
def init {F : Type} (enc : F → Nat) (config : StepperConfig F) : M Unit := do
  write_register registers.PULSE_PER_REV config.pulse_per_rev
  write_register registers.MOTOR_DIRECTION config.direction.toWord
  set_peak_current enc config.phase_current
  set_motor_inductance config.inductance

/-- Sync method `forced_enable_by_software`. -/
def forced_enable_by_software (enable : Bool) : M Unit :=
  let value := if enable then 0x0001 else 0x0000
  write_register registers.FORCED_ENA value

/-- Sync method `set_control_word`. -/
def set_control_word (command : ControlWord) : M Unit :=
  write_register registers.CONTROL_WORD command.toWord

/-- Sync method `save_param_eeprom`. -/
def save_param_eeprom : M Unit :=
  set_control_word ControlWord.SaveParamEeprom

/-- Sync method `param_reset`. -/
def param_reset : M Unit :=
  set_control_word ControlWord.ParamReset

/-- Sync method `factory_reset`. -/
def factory_reset : M Unit :=
  set_control_word ControlWord.FactoryReset

/-- Sync method `save_mapping_eeprom`. -/
def save_mapping_eeprom : M Unit :=
  set_control_word ControlWord.SaveMappingEeprom

/-- Sync method `jog_motor`. -/
def jog_motor (direction : Direction) : M Unit :=
  let command := match direction with
    | Direction.Clockwise => ControlWord.JogClockwise
    | Direction.CounterClockwise => ControlWord.JogCounterClockwise
  set_control_word command

/-- Sync method `configure_input`: validates the input number (1 to 7) and
writes the function code, plus the normally-closed increment, to the
register `SI1 + (input_no - 1) * 2`. -/
def configure_input (input_no : Nat) (function : DigitalInputFunction)
    (normally_closed : Bool) : M Unit :=
  if ¬ (1 ≤ input_no ∧ input_no ≤ 7) then
    M.throw (.invalidDigitalInput input_no)
  else
    let config := function.toWord + (if normally_closed then registers.flags.SI_NC_INCR else 0)
    let register := registers.SI1 + (input_no - 1) * 2
    write_register register config

/-- Sync method `get_input_status`.  Indexing `data[0]` of the source is
rendered as `headD 0`; the channel returns `count` words on success. -/
def get_input_status : M Nat := do
  let data ← read_registers registers.DIGITAL_INPUT_STATUS 1
  pure (data.headD 0)

/-- Sync method `get_motion_status`. -/
def get_motion_status : M MotionStatus := do
  let data ← read_registers registers.MOTION_STATUS 1
  pure ⟨data.headD 0⟩

/-- Sync method `is_path_completed`. -/
def is_path_completed : M Bool := do
  let status ← get_motion_status
  pure status.is_path_complete

/-- Sync method `is_homing_completed`. -/
def is_homing_completed : M Bool := do
  let status ← get_motion_status
  pure status.is_homing_complete

/-- Sync method `set_ctrg_effective_edge`: read-modify-write of bit 0 of the
PR global control register.  The u16 complement of `1 <<< 0` is written
as xor with 0xFFFF. -/
def set_ctrg_effective_edge (double_edge : Bool) : M Unit := do
  let data ← read_registers registers.PR_GLOBAL_CTRL_FCT 1
  let reg := data.headD 0
  let reg := if double_edge then reg ||| (1 <<< 0) else reg &&& (0xFFFF ^^^ (1 <<< 0))
  write_register registers.PR_GLOBAL_CTRL_FCT reg

/-- Sync method `soft_limit_control`: read-modify-write of bit 1. -/
def soft_limit_control (enable : Bool) : M Unit := do
  let data ← read_registers registers.PR_GLOBAL_CTRL_FCT 1
  let reg := data.headD 0
  let reg := if enable then reg ||| (1 <<< 1) else reg &&& (0xFFFF ^^^ (1 <<< 1))
  write_register registers.PR_GLOBAL_CTRL_FCT reg

/-- Sync method `set_soft_limit_max`: 32-bit split, high word first. -/
def set_soft_limit_max (mx : Nat) : M Unit := do
  let lsb := mx &&& 0xFFFF
  let msb := (mx >>> 16) &&& 0xFFFF
  write_register registers.SOFT_LIMIT_P_H msb
  write_register registers.SOFT_LIMIT_P_L lsb

/-- Sync method `set_soft_limit_min`: 32-bit split, high word first. -/
def set_soft_limit_min (mn : Nat) : M Unit := do
  let lsb := mn &&& 0xFFFF
  let msb := (mn >>> 16) &&& 0xFFFF
  write_register registers.SOFT_LIMIT_N_H msb
  write_register registers.SOFT_LIMIT_N_L lsb

/-- Sync method `homing_power_up_control`: read-modify-write of bit 2. -/
def homing_power_up_control (enable : Bool) : M Unit := do
  let data ← read_registers registers.PR_GLOBAL_CTRL_FCT 1
  let reg := data.headD 0
  let reg := if enable then reg ||| (1 <<< 2) else reg &&& (0xFFFF ^^^ (1 <<< 2))
  write_register registers.PR_GLOBAL_CTRL_FCT reg

/-- Sync method `set_ctrg_trigger_type`: read-modify-write of bit 4. -/
def set_ctrg_trigger_type (level_trigger : Bool) : M Unit := do
  let data ← read_registers registers.PR_GLOBAL_CTRL_FCT 1
  let reg := data.headD 0
  let reg := if level_trigger then reg ||| (1 <<< 4) else reg &&& (0xFFFF ^^^ (1 <<< 4))
  write_register registers.PR_GLOBAL_CTRL_FCT reg

/-- Sync method `configure_homing`: packs the homing mode word and writes it,
followed by the auxiliary fixed write of 0x0002 to 0x601A. -/
def configure_homing (direction : Direction) (move_to_pos : Bool)
    (method : HomingMethod) : M Unit := do
  let config := direction.toWord
    + (if move_to_pos then 0x0002 else 0x0000)
    + method.toWord
  write_register registers.HOME_MODE config
  write_register 0x601A 0x0002

/-- Sync method `set_homing_position`: 32-bit split, high word first. -/
def set_homing_position (position : Nat) : M Unit := do
  let lsb := position &&& 0xFFFF
  let msb := (position >>> 16) &&& 0xFFFF
  write_register registers.HOME_SWITCH_POS_HIGH msb
  write_register registers.HOME_SWITCH_POS_LOW lsb

/-- Sync method `set_homing_stop_position`: 32-bit split, high word first. -/
def set_homing_stop_position (position : Nat) : M Unit := do
  let lsb := position &&& 0xFFFF
  let msb := (position >>> 16) &&& 0xFFFF
  write_register registers.HOMING_STOP_POS_HIGH msb
  write_register registers.HOMING_STOP_POS_LOW lsb

/-- Sync method `set_homing_high_velocity`. -/
def set_homing_high_velocity (rpm : Nat) : M Unit :=
  write_register registers.HOMING_HIGH_VELOCITY rpm

/-- Sync method `set_homing_low_velocity`. -/
def set_homing_low_velocity (rpm : Nat) : M Unit :=
  write_register registers.HOMING_LOW_VELOCITY rpm

/-- Sync method `set_homing_acceleration`. -/
def set_homing_acceleration (acc : Nat) : M Unit :=
  write_register registers.HOMING_ACC acc

/-- Sync method `set_homing_deceleration`. -/
def set_homing_deceleration (dec : Nat) : M Unit :=
  write_register registers.HOMING_DEC dec

/-- Sync method `apply_homing_config`: the composite homing write sequence. -/
def apply_homing_config (config : HomingConfig) : M Unit := do
  configure_input config.input_no config.function config.normally_closed
  configure_homing config.direction config.move_to_pos_after config.method
  set_homing_position config.position
  set_homing_stop_position config.position_stop
  set_homing_high_velocity config.high_velocity
  set_homing_low_velocity config.low_velocity
  set_homing_acceleration config.acceleration
  set_homing_deceleration config.deceleration
  pure ()

/-- Sync method `set_pr_control`. -/
def set_pr_control (command : PrControlCommand) : M Unit :=
  write_register registers.PR_CTRL command.toWord

/-- Sync method `start_homing`. -/
def start_homing : M Unit :=
  set_pr_control PrControlCommand.Homing

/-- Sync method `start_path`: validates the path id and writes the command
base plus the id to the PR control register. -/
def start_path (path_id : Nat) : M Unit :=
  if path_id > 8 then
    M.throw (.invalidPath path_id)
  else
    let command_value := PrControlCommand.RunThePath.toWord + path_id
    write_register registers.PR_CTRL command_value

/-- Sync method `stop_motor`. -/
def stop_motor : M Unit :=
  set_pr_control PrControlCommand.QuickStop

/-- Sync method `manual_zero`. -/
def manual_zero : M Unit :=
  set_pr_control PrControlCommand.ManualZero

/-- Sync method `configure_path_motion`: packs the path control word of the
path with the given id.  The jump target nibble is `jump_to & 0x0F`
shifted left by 8, added only when `jump` is set. -/
def configure_path_motion (path_id : Nat) (motion_type : PathMotionType)
    (interrupt overlap absolute jump : Bool) (jump_to : Nat) : M Unit :=
  match registers.get_path_base path_id with
  | none => M.throw (.invalidPath path_id)
  | some base =>
    let config := motion_type.toWord
      + (if interrupt then 0x0010 else 0x0000)
      + (if overlap then 0x0020 else 0x0000)
      + (if absolute then 0x0000 else 0x0040)
    let config := if jump then config + (0x4000 + ((jump_to &&& 0x0F) <<< 8)) else config
    write_register base config

/-- Sync method `set_path_position`: 32-bit split at the path base, high word
first. -/
def set_path_position (path_id : Nat) (position : Nat) : M Unit :=
  match registers.get_path_base path_id with
  | none => M.throw (.invalidPath path_id)
  | some base => do
    let lsb := position &&& 0xFFFF
    let msb := (position >>> 16) &&& 0xFFFF
    write_register (base + registers.PATH_POSITION_H_OFFSET) msb
    write_register (base + registers.PATH_POSITION_L_OFFSET) lsb

/-- Sync method `set_path_velocity`. -/
def set_path_velocity (path_id : Nat) (rpm : Nat) : M Unit :=
  match registers.get_path_base path_id with
  | none => M.throw (.invalidPath path_id)
  | some base => write_register (base + registers.PATH_VELOCITY_OFFSET) rpm

/-- Sync method `set_path_acceleration`. -/
def set_path_acceleration (path_id : Nat) (acc : Nat) : M Unit :=
  match registers.get_path_base path_id with
  | none => M.throw (.invalidPath path_id)
  | some base => write_register (base + registers.PATH_ACC_OFFSET) acc

/-- Sync method `set_path_deceleration`. -/
def set_path_deceleration (path_id : Nat) (dec : Nat) : M Unit :=
  match registers.get_path_base path_id with
  | none => M.throw (.invalidPath path_id)
  | some base => write_register (base + registers.PATH_DEC_OFFSET) dec

/-- Sync method `set_path_pause_time`. -/
def set_path_pause_time (path_id : Nat) (ms : Nat) : M Unit :=
  match registers.get_path_base path_id with
  | none => M.throw (.invalidPath path_id)
  | some base => write_register (base + registers.PATH_PAUSE_TIME_OFFSET) ms

/-- Sync method `apply_path_config`: the composite path write sequence; the
pause time is written only when non-zero. -/
def apply_path_config (config : PathConfig) : M Unit := do
  configure_path_motion config.path_id PathMotionType.PositionPositioning
    false false config.absolute_position false 0
  set_path_position config.path_id config.position
  set_path_velocity config.path_id config.velocity
  set_path_acceleration config.path_id config.acceleration
  set_path_deceleration config.path_id config.deceleration
  if config.pause_time > 0 then
    set_path_pause_time config.path_id config.pause_time
  pure ()

/-- Sync method `get_version`. -/
def get_version : M Nat := do
  let data ← read_registers registers.VERSION_INFORMATION 1
  pure (data.headD 0)

/-- Sync method `get_current_alarm`. -/
def get_current_alarm : M CurrentAlarm := do
  let data ← read_registers registers.CURRENT_ALARM 1
  pure ⟨data.headD 0⟩

end Sync

/-- Expected write sequence of `apply_path_config` before the optional
pause-time write: the path control word (motion type fixed to position
positioning, no interrupt, no overlap, no jump), the split position high
then low, velocity, acceleration, deceleration. -/
def pathWrites (base : Nat) (cfg : PathConfig) : List Op :=
  [Op.write base
      (PathMotionType.PositionPositioning.toWord
        + (if cfg.absolute_position then 0x0000 else 0x0040)),
   Op.write (base + registers.PATH_POSITION_H_OFFSET) ((cfg.position >>> 16) &&& 0xFFFF),
   Op.write (base + registers.PATH_POSITION_L_OFFSET) (cfg.position &&& 0xFFFF),
   Op.write (base + registers.PATH_VELOCITY_OFFSET) cfg.velocity,
   Op.write (base + registers.PATH_ACC_OFFSET) cfg.acceleration,
   Op.write (base + registers.PATH_DEC_OFFSET) cfg.deceleration]

/-- Expected write sequence of `apply_homing_config`: digital input
configuration, homing mode, the auxiliary fixed write, split home
position, split stop position, high velocity, low velocity,
acceleration, deceleration — eleven writes. -/
def homingWrites (cfg : HomingConfig) : List Op :=
  [Op.write (registers.SI1 + (cfg.input_no - 1) * 2)
      (cfg.function.toWord + if cfg.normally_closed then registers.flags.SI_NC_INCR else 0),
   Op.write registers.HOME_MODE
      (cfg.direction.toWord + (if cfg.move_to_pos_after then 0x0002 else 0x0000)
        + cfg.method.toWord),
   Op.write 0x601A 0x0002,
   Op.write registers.HOME_SWITCH_POS_HIGH ((cfg.position >>> 16) &&& 0xFFFF),
   Op.write registers.HOME_SWITCH_POS_LOW (cfg.position &&& 0xFFFF),
   Op.write registers.HOMING_STOP_POS_HIGH ((cfg.position_stop >>> 16) &&& 0xFFFF),
   Op.write registers.HOMING_STOP_POS_LOW (cfg.position_stop &&& 0xFFFF),
   Op.write registers.HOMING_HIGH_VELOCITY cfg.high_velocity,
   Op.write registers.HOMING_LOW_VELOCITY cfg.low_velocity,
   Op.write registers.HOMING_ACC cfg.acceleration,
   Op.write registers.HOMING_DEC cfg.deceleration]

/-- Word written back by the PR global control read-modify-write
helpers: the word read with bit `k` set or cleared, `reg |= 1 << k`
respectively `reg &= !(1 << k)` on u16 values. -/
def rmwWord (k : Nat) (set : Bool) (v : Nat) : Nat :=
  if set then v ||| (1 <<< k) else v &&& (0xFFFF ^^^ (1 <<< k))

/-! ### Theorems -/

/-- Bit k of the read-modify-write word equals the requested flag, and
every other bit of a 16-bit word is preserved. -/
theorem rmwWord_testBit (k : Nat) (hk : k < 16) (b : Bool) (v : Nat) (hv : v < 2 ^ 16) :
    (rmwWord k b v).testBit k = b
    ∧ ∀ j, j ≠ k → (rmwWord k b v).testBit j = v.testBit j := by
  have hsl : (1 : Nat) <<< k = 2 ^ k := by rw [Nat.shiftLeft_eq, one_mul]
  have hFbit : ∀ i, Nat.testBit 0xFFFF i = decide (i < 16) := fun i => by
    have hmask : (0xFFFF : Nat) = 2 ^ 16 - 1 := by norm_num
    rw [hmask]
    exact Nat.testBit_two_pow_sub_one 16 i
  cases b
  · constructor
    · simp [rmwWord, hsl, hFbit, Nat.testBit_and, Nat.testBit_xor,
        Nat.testBit_two_pow, hk]
    · intro j hj
      by_cases hj16 : j < 16
      · simp [rmwWord, hsl, hFbit, Nat.testBit_and, Nat.testBit_xor,
          Nat.testBit_two_pow, hj16, Ne.symm hj]
      · have hvj : v.testBit j = false :=
          Nat.testBit_lt_two_pow
            (lt_of_lt_of_le hv (Nat.pow_le_pow_right (by norm_num) (le_of_not_lt hj16)))
        simp [rmwWord, hsl, hFbit, Nat.testBit_and, Nat.testBit_xor,
          Nat.testBit_two_pow, hj16, hvj, Ne.symm hj]
  · constructor
    · simp [rmwWord, hsl, Nat.testBit_or, Nat.testBit_two_pow]
    · intro j hj
      simp [rmwWord, hsl, Nat.testBit_or, Nat.testBit_two_pow, Ne.symm hj]

/-- C7: for every inductance value, `set_motor_inductance` (in both
clients) issues exactly one write to MOTOR_INDUCTANCE carrying 10000
when the input exceeds 10000 and the unchanged input otherwise, and the
clamp is silent: under an accepting channel the call succeeds. -/
theorem C7_inductance_clamp (ind : Nat) :
    (Async.set_motor_inductance ind).tr okEnv
        = [Op.write registers.MOTOR_INDUCTANCE (if ind > 10000 then 10000 else ind)]
    ∧ (Async.set_motor_inductance ind).res okEnv = .ok ()
    ∧ (Sync.set_motor_inductance ind).tr okEnv
        = [Op.write registers.MOTOR_INDUCTANCE (if ind > 10000 then 10000 else ind)]
    ∧ (Sync.set_motor_inductance ind).res okEnv = .ok () := by
  have hmin : min ind 10000 = if ind > 10000 then 10000 else ind := by
    rw [Nat.min_def]; split <;> split <;> omega
  refine ⟨?_, rfl, ?_, rfl⟩ <;>
    simp [Async.set_motor_inductance, Sync.set_motor_inductance, Async.write_register,
      Sync.write_register, M.tr, M.run, okEnv, hmin]

/-- Lookup failure above id 8, for any surplus. -/
theorem get_path_base_none (id : Nat) (h : 8 < id) :
    registers.get_path_base id = none := by
  match id, h with
  | n + 9, _ => rfl

/-- Unfolding of a pure computation: no transaction, no trace growth. -/
theorem M.pure_def {α : Type} (a : α) (s : St) :
    (pure a : M α) s = (.ok a, s) := rfl

/-- Unfolding of sequencing: run the first computation, feed its value
onward, or stop at its error. -/
theorem M.bind_def {α β : Type} (x : M α) (f : α → M β) (s : St) :
    (x >>= f) s =
      match x s with
      | (.ok a, s1) => f a s1
      | (.error e, s1) => (.error e, s1) := rfl

/-- Sequencing after an error is the error. -/
theorem M.throw_bind {α β : Type} (e : Em2rsError) (f : α → M β) :
    (M.throw e >>= f) = (M.throw e : M β) := rfl

/-- Result of a thrown error. -/
theorem M.res_throw {α : Type} (e : Em2rsError) (env : Env) :
    (M.throw e : M α).res env = .error e := rfl

/-- Trace of a thrown error. -/
theorem M.tr_throw {α : Type} (e : Em2rsError) (env : Env) :
    (M.throw e : M α).tr env = [] := rfl

/-- C6: for input numbers 1 to 7, `configure_input` issues the single
write of the function code (plus 0x0080 when normally closed) to
register `SI1 + (n - 1) * 2`; for 0 or anything at least 8 it fails with
the invalid-digital-input error carrying the input number, with zero
register operations, in both clients. -/
theorem C6_configure_input (n : Nat) (fn : DigitalInputFunction) (nc : Bool) :
    (1 ≤ n → n ≤ 7 →
      (Async.configure_input n fn nc).tr okEnv
          = [Op.write (registers.SI1 + (n - 1) * 2)
              (fn.toWord + if nc then registers.flags.SI_NC_INCR else 0)]
        ∧ (Async.configure_input n fn nc).res okEnv = .ok ()
        ∧ (Sync.configure_input n fn nc).tr okEnv
          = [Op.write (registers.SI1 + (n - 1) * 2)
              (fn.toWord + if nc then registers.flags.SI_NC_INCR else 0)]
        ∧ (Sync.configure_input n fn nc).res okEnv = .ok ())
    ∧ ((n = 0 ∨ 8 ≤ n) → ∀ env : Env,
        (Async.configure_input n fn nc).res env = .error (.invalidDigitalInput n)
        ∧ (Async.configure_input n fn nc).tr env = []
        ∧ (Sync.configure_input n fn nc).res env = .error (.invalidDigitalInput n)
        ∧ (Sync.configure_input n fn nc).tr env = []) := by
  constructor
  · intro h1 h7
    have hcond : ¬ ¬ (1 ≤ n ∧ n ≤ 7) := by omega
    simp only [Async.configure_input, Sync.configure_input, if_neg hcond]
    refine ⟨?_, rfl, ?_, rfl⟩ <;>
      simp [Async.write_register, Sync.write_register, M.tr, M.run, okEnv]
  · intro hbad env
    have hcond : ¬ (1 ≤ n ∧ n ≤ 7) := by omega
    simp only [Async.configure_input, Sync.configure_input, if_pos hcond]
    exact ⟨rfl, rfl, rfl, rfl⟩

/-- C6 witness: input 3 maps to SI1 + 4; input 9 is rejected with no
operations issued. -/
theorem C6_configure_input_witness :
    (Async.configure_input 3 DigitalInputFunction.Org true).tr okEnv
        = [Op.write (registers.SI1 + (3 - 1) * 2)
            (DigitalInputFunction.Org.toWord + if true then registers.flags.SI_NC_INCR else 0)]
    ∧ (Async.configure_input 9 DigitalInputFunction.Org true).res okEnv
        = .error (.invalidDigitalInput 9)
    ∧ (Async.configure_input 9 DigitalInputFunction.Org true).tr okEnv = [] :=
  ⟨((C6_configure_input 3 DigitalInputFunction.Org true).1 (by decide) (by decide)).1,
   ((C6_configure_input 9 DigitalInputFunction.Org true).2 (by omega) okEnv).1,
   ((C6_configure_input 9 DigitalInputFunction.Org true).2 (by omega) okEnv).2.1⟩

/-- C4: path-base lookup returns the documented fixed addresses for ids
0 to 8 and `none` beyond; every path-taking operation of either client,
and the `PathConfig` constructor, fails with the invalid-path error
carrying the offending id, issuing no register operation, for any id
from 9 to 255 and any channel environment. -/
theorem C4_path_validation :
    (registers.get_path_base 0 = some 0x6200
      ∧ registers.get_path_base 1 = some 0x6208
      ∧ registers.get_path_base 2 = some 0x6210
      ∧ registers.get_path_base 3 = some 0x6218
      ∧ registers.get_path_base 4 = some 0x6220
      ∧ registers.get_path_base 5 = some 0x6228
      ∧ registers.get_path_base 6 = some 0x6230
      ∧ registers.get_path_base 7 = some 0x6238
      ∧ registers.get_path_base 8 = some 0x6240)
    ∧ ∀ id : Nat, 8 < id → id < 256 →
        registers.get_path_base id = none
        ∧ PathConfig.new id = .error (.invalidPath id)
        ∧ ∀ env : Env,
          ((Async.start_path id).res env = .error (.invalidPath id)
            ∧ (Async.start_path id).tr env = []
            ∧ (Sync.start_path id).res env = .error (.invalidPath id)
            ∧ (Sync.start_path id).tr env = [])
          ∧ (∀ (mt : PathMotionType) (i o a j : Bool) (jt : Nat),
              (Async.configure_path_motion id mt i o a j jt).res env
                  = .error (.invalidPath id)
              ∧ (Async.configure_path_motion id mt i o a j jt).tr env = []
              ∧ (Sync.configure_path_motion id mt i o a j jt).res env
                  = .error (.invalidPath id)
              ∧ (Sync.configure_path_motion id mt i o a j jt).tr env = [])
          ∧ (∀ p : Nat,
              (Async.set_path_position id p).res env = .error (.invalidPath id)
              ∧ (Async.set_path_position id p).tr env = []
              ∧ (Sync.set_path_position id p).res env = .error (.invalidPath id)
              ∧ (Sync.set_path_position id p).tr env = [])
          ∧ (∀ v : Nat,
              (Async.set_path_velocity id v).res env = .error (.invalidPath id)
              ∧ (Async.set_path_velocity id v).tr env = []
              ∧ (Sync.set_path_velocity id v).res env = .error (.invalidPath id)
              ∧ (Sync.set_path_velocity id v).tr env = [])
          ∧ (∀ a : Nat,
              (Async.set_path_acceleration id a).res env = .error (.invalidPath id)
              ∧ (Async.set_path_acceleration id a).tr env = []
              ∧ (Sync.set_path_acceleration id a).res env = .error (.invalidPath id)
              ∧ (Sync.set_path_acceleration id a).tr env = [])
          ∧ (∀ d : Nat,
              (Async.set_path_deceleration id d).res env = .error (.invalidPath id)
              ∧ (Async.set_path_deceleration id d).tr env = []
              ∧ (Sync.set_path_deceleration id d).res env = .error (.invalidPath id)
              ∧ (Sync.set_path_deceleration id d).tr env = [])
          ∧ (∀ ms : Nat,
              (Async.set_path_pause_time id ms).res env = .error (.invalidPath id)
              ∧ (Async.set_path_pause_time id ms).tr env = []
              ∧ (Sync.set_path_pause_time id ms).res env = .error (.invalidPath id)
              ∧ (Sync.set_path_pause_time id ms).tr env = [])
          ∧ (∀ cfg : PathConfig, cfg.path_id = id →
              (Async.apply_path_config cfg).res env = .error (.invalidPath id)
              ∧ (Async.apply_path_config cfg).tr env = []
              ∧ (Sync.apply_path_config cfg).res env = .error (.invalidPath id)
              ∧ (Sync.apply_path_config cfg).tr env = []) := by
  refine ⟨⟨rfl, rfl, rfl, rfl, rfl, rfl, rfl, rfl, rfl⟩, ?_⟩
  intro id h h256
  have hb := get_path_base_none id h
  refine ⟨hb, ?_, fun env => ⟨⟨?_, ?_, ?_, ?_⟩, fun mt i o a j jt => ⟨?_, ?_, ?_, ?_⟩,
    fun p => ⟨?_, ?_, ?_, ?_⟩, fun v => ⟨?_, ?_, ?_, ?_⟩, fun a => ⟨?_, ?_, ?_, ?_⟩,
    fun d => ⟨?_, ?_, ?_, ?_⟩, fun ms => ⟨?_, ?_, ?_, ?_⟩,
    fun cfg hcfg => ⟨?_, ?_, ?_, ?_⟩⟩⟩ <;>
  simp [PathConfig.new, Async.start_path, Sync.start_path,
    Async.configure_path_motion, Sync.configure_path_motion,
    Async.set_path_position, Sync.set_path_position,
    Async.set_path_velocity, Sync.set_path_velocity,
    Async.set_path_acceleration, Sync.set_path_acceleration,
    Async.set_path_deceleration, Sync.set_path_deceleration,
    Async.set_path_pause_time, Sync.set_path_pause_time,
    Async.apply_path_config, Sync.apply_path_config,
    h, hb, M.throw_bind, M.res_throw, M.tr_throw, *]

/-- C4 witness: id 9 is rejected everywhere with an empty trace, and id
1 looks up to 0x6208. -/
theorem C4_path_validation_witness :
    registers.get_path_base 1 = some 0x6208
    ∧ registers.get_path_base 9 = none
    ∧ PathConfig.new 9 = .error (.invalidPath 9)
    ∧ (Async.start_path 9).res okEnv = .error (.invalidPath 9)
    ∧ (Async.start_path 9).tr okEnv = [] :=
  ⟨C4_path_validation.1.2.1,
   (C4_path_validation.2 9 (by decide) (by decide)).1,
   (C4_path_validation.2 9 (by decide) (by decide)).2.1,
   ((C4_path_validation.2 9 (by decide) (by decide)).2.2 okEnv).1.1,
   ((C4_path_validation.2 9 (by decide) (by decide)).2.2 okEnv).1.2.1⟩

/-- C10: `configure_path_motion` accepts every jump target without
error; with jump set the written control word gains 0x4000 plus the low
nibble of the jump target shifted left by 8 (targets above 15 are
silently masked, the nibble being `jump_to % 16`); with jump clear the
jump target has no effect on the computation at all.  Holds for both
clients. -/
theorem C10_jump_nibble (pid base : Nat)
    (hb : registers.get_path_base pid = some base)
    (mt : PathMotionType) (i o a : Bool) (jt : Nat) :
    ((Async.configure_path_motion pid mt i o a true jt).res okEnv = .ok ()
      ∧ (Async.configure_path_motion pid mt i o a true jt).tr okEnv
          = [Op.write base
              (mt.toWord + (if i then 0x0010 else 0x0000)
                + (if o then 0x0020 else 0x0000)
                + (if a then 0x0000 else 0x0040)
                + (0x4000 + ((jt &&& 0x0F) <<< 8)))]
      ∧ (Sync.configure_path_motion pid mt i o a true jt).res okEnv = .ok ()
      ∧ (Sync.configure_path_motion pid mt i o a true jt).tr okEnv
          = [Op.write base
              (mt.toWord + (if i then 0x0010 else 0x0000)
                + (if o then 0x0020 else 0x0000)
                + (if a then 0x0000 else 0x0040)
                + (0x4000 + ((jt &&& 0x0F) <<< 8)))])
    ∧ jt &&& 0x0F = jt % 16
    ∧ ((Async.configure_path_motion pid mt i o a false jt).res okEnv = .ok ()
      ∧ (Async.configure_path_motion pid mt i o a false jt).tr okEnv
          = [Op.write base
              (mt.toWord + (if i then 0x0010 else 0x0000)
                + (if o then 0x0020 else 0x0000)
                + (if a then 0x0000 else 0x0040))]
      ∧ (Sync.configure_path_motion pid mt i o a false jt).res okEnv = .ok ()
      ∧ (Sync.configure_path_motion pid mt i o a false jt).tr okEnv
          = [Op.write base
              (mt.toWord + (if i then 0x0010 else 0x0000)
                + (if o then 0x0020 else 0x0000)
                + (if a then 0x0000 else 0x0040))])
    ∧ Async.configure_path_motion pid mt i o a false jt
        = Async.configure_path_motion pid mt i o a false 0
    ∧ Sync.configure_path_motion pid mt i o a false jt
        = Sync.configure_path_motion pid mt i o a false 0 := by
  have hmod : jt &&& 0x0F = jt % 16 := by
    have := Nat.and_pow_two_sub_one_eq_mod jt 4
    norm_num at this
    exact this
  refine ⟨⟨?_, ?_, ?_, ?_⟩, hmod, ⟨?_, ?_, ?_, ?_⟩, ?_, ?_⟩ <;>
    simp [Async.configure_path_motion, Sync.configure_path_motion, hb,
      Async.write_register, Sync.write_register, M.res, M.tr, M.run, okEnv]

/-- C10 witness: the concrete jump target 0x23 on path 2 is masked to
nibble 3 in the written word. -/
theorem C10_jump_nibble_witness :
    (Async.configure_path_motion 2 PathMotionType.PositionPositioning
        false false true true 0x23).tr okEnv
      = [Op.write 0x6210
          (PathMotionType.PositionPositioning.toWord + (if false then 0x0010 else 0x0000)
            + (if false then 0x0020 else 0x0000)
            + (if true then 0x0000 else 0x0040)
            + (0x4000 + ((0x23 &&& 0x0F) <<< 8)))]
    ∧ (0x23 : Nat) &&& 0x0F = 0x23 % 16 :=
  ⟨(C10_jump_nibble 2 0x6210 rfl PathMotionType.PositionPositioning
      false false true 0x23).1.2.1,
   (C10_jump_nibble 2 0x6210 rfl PathMotionType.PositionPositioning
      false false true 0x23).2.1⟩

/-- Rejoining the high and low words of a 32-bit split recovers the
original value. -/
theorem split32_join (P : Nat) (hP : P < 2 ^ 32) :
    ((((P >>> 16) &&& 0xFFFF) <<< 16) ||| (P &&& 0xFFFF)) = P := by
  have hlo : P &&& 0xFFFF = P % 65536 := by
    have := Nat.and_pow_two_sub_one_eq_mod P 16
    norm_num at this
    exact this
  have hhi : (P >>> 16) &&& 0xFFFF = (P >>> 16) % 65536 := by
    have := Nat.and_pow_two_sub_one_eq_mod (P >>> 16) 16
    norm_num at this
    exact this
  have hshr : P >>> 16 = P / 65536 := by
    have := Nat.shiftRight_eq_div_pow P 16
    norm_num at this
    exact this
  rw [Nat.shiftLeft_eq, hlo, hhi, hshr]
  have hb : P % 65536 < 2 ^ 16 := by norm_num [Nat.mod_lt]
  have hor := Nat.mul_add_lt_is_or (i := 16) hb (P / 65536 % 65536)
  norm_num at hor
  rw [Nat.mul_comm (P / 65536 % 65536) (2 ^ 16)]
  norm_num
  rw [← hor]
  omega

/-- C3: every split-position operation of either client issues exactly
two writes, the high word `(P >>> 16) &&& 0xFFFF` to its high register
followed by the low word `P &&& 0xFFFF` to its low register, and the
rejoin `(high <<< 16) ||| low` recovers P exactly. -/
theorem C3_split_high_before_low (P : Nat) (hP : P < 2 ^ 32)
    (pid base : Nat) (hb : registers.get_path_base pid = some base) :
    ((((P >>> 16) &&& 0xFFFF) <<< 16) ||| (P &&& 0xFFFF)) = P
    ∧ (Async.set_path_position pid P).tr okEnv
        = [Op.write (base + registers.PATH_POSITION_H_OFFSET) ((P >>> 16) &&& 0xFFFF),
           Op.write (base + registers.PATH_POSITION_L_OFFSET) (P &&& 0xFFFF)]
    ∧ (Async.set_homing_position P).tr okEnv
        = [Op.write registers.HOME_SWITCH_POS_HIGH ((P >>> 16) &&& 0xFFFF),
           Op.write registers.HOME_SWITCH_POS_LOW (P &&& 0xFFFF)]
    ∧ (Async.set_homing_stop_position P).tr okEnv
        = [Op.write registers.HOMING_STOP_POS_HIGH ((P >>> 16) &&& 0xFFFF),
           Op.write registers.HOMING_STOP_POS_LOW (P &&& 0xFFFF)]
    ∧ (Async.set_soft_limit_max P).tr okEnv
        = [Op.write registers.SOFT_LIMIT_P_H ((P >>> 16) &&& 0xFFFF),
           Op.write registers.SOFT_LIMIT_P_L (P &&& 0xFFFF)]
    ∧ (Async.set_soft_limit_min P).tr okEnv
        = [Op.write registers.SOFT_LIMIT_N_H ((P >>> 16) &&& 0xFFFF),
           Op.write registers.SOFT_LIMIT_N_L (P &&& 0xFFFF)]
    ∧ (Sync.set_path_position pid P).tr okEnv
        = [Op.write (base + registers.PATH_POSITION_H_OFFSET) ((P >>> 16) &&& 0xFFFF),
           Op.write (base + registers.PATH_POSITION_L_OFFSET) (P &&& 0xFFFF)]
    ∧ (Sync.set_homing_position P).tr okEnv
        = [Op.write registers.HOME_SWITCH_POS_HIGH ((P >>> 16) &&& 0xFFFF),
           Op.write registers.HOME_SWITCH_POS_LOW (P &&& 0xFFFF)]
    ∧ (Sync.set_homing_stop_position P).tr okEnv
        = [Op.write registers.HOMING_STOP_POS_HIGH ((P >>> 16) &&& 0xFFFF),
           Op.write registers.HOMING_STOP_POS_LOW (P &&& 0xFFFF)]
    ∧ (Sync.set_soft_limit_max P).tr okEnv
        = [Op.write registers.SOFT_LIMIT_P_H ((P >>> 16) &&& 0xFFFF),
           Op.write registers.SOFT_LIMIT_P_L (P &&& 0xFFFF)]
    ∧ (Sync.set_soft_limit_min P).tr okEnv
        = [Op.write registers.SOFT_LIMIT_N_H ((P >>> 16) &&& 0xFFFF),
           Op.write registers.SOFT_LIMIT_N_L (P &&& 0xFFFF)] := by
  refine ⟨split32_join P hP, ?_, ?_, ?_, ?_, ?_, ?_, ?_, ?_, ?_, ?_⟩ <;>
    simp [Async.set_path_position, Sync.set_path_position,
      Async.set_homing_position, Sync.set_homing_position,
      Async.set_homing_stop_position, Sync.set_homing_stop_position,
      Async.set_soft_limit_max, Sync.set_soft_limit_max,
      Async.set_soft_limit_min, Sync.set_soft_limit_min, hb,
      Async.write_register, Sync.write_register, M.bind_def, M.tr, M.run, okEnv]

/-- C3 witness: the split of 0x12345678 on homing position. -/
theorem C3_split_high_before_low_witness :
    ((((0x12345678 >>> 16) &&& 0xFFFF) <<< 16) ||| ((0x12345678 : Nat) &&& 0xFFFF)) = 0x12345678
    ∧ (Async.set_homing_position 0x12345678).tr okEnv
        = [Op.write registers.HOME_SWITCH_POS_HIGH ((0x12345678 >>> 16) &&& 0xFFFF),
           Op.write registers.HOME_SWITCH_POS_LOW ((0x12345678 : Nat) &&& 0xFFFF)] :=
  ⟨(C3_split_high_before_low 0x12345678 (by norm_num) 0 0x6200 rfl).1,
   (C3_split_high_before_low 0x12345678 (by norm_num) 0 0x6200 rfl).2.2.1⟩

/-- C2 counterexample: the path configuration of the claim (path 0,
position 5000, velocity 300, acceleration 150, deceleration 150, pause
time 0) makes `apply_path_config` issue six register writes, not five:
the motion-type write plus position high, position low, velocity,
acceleration and deceleration. -/
theorem C2_five_writes_counterexample :
    (writesOf ((Async.apply_path_config
        { path_id := 0, absolute_position := true, position := 5000, velocity := 300,
          acceleration := 150, deceleration := 150, pause_time := 0 }).tr okEnv)).length = 6
    ∧ ¬ (writesOf ((Async.apply_path_config
        { path_id := 0, absolute_position := true, position := 5000, velocity := 300,
          acceleration := 150, deceleration := 150, pause_time := 0 }).tr okEnv)).length = 5 := by
  exact ⟨rfl, by decide⟩

/-- C2 (amended): for every path configuration with a valid path id,
`apply_path_config` with zero pause time issues exactly the six writes
motion-type, position-high, position-low, velocity, acceleration,
deceleration in that order, with no pause-time write; with non-zero
pause time the pause-time write is appended as the seventh and last
write.  Holds for both clients. -/
theorem C2_path_config_writes (cfg : PathConfig) (base : Nat)
    (hb : registers.get_path_base cfg.path_id = some base) :
    (cfg.pause_time = 0 →
      (Async.apply_path_config cfg).tr okEnv = pathWrites base cfg
      ∧ (Async.apply_path_config cfg).res okEnv = .ok ()
      ∧ (Sync.apply_path_config cfg).tr okEnv = pathWrites base cfg
      ∧ (Sync.apply_path_config cfg).res okEnv = .ok ())
    ∧ (0 < cfg.pause_time →
      (Async.apply_path_config cfg).tr okEnv
          = pathWrites base cfg
            ++ [Op.write (base + registers.PATH_PAUSE_TIME_OFFSET) cfg.pause_time]
      ∧ (Async.apply_path_config cfg).res okEnv = .ok ()
      ∧ (Sync.apply_path_config cfg).tr okEnv
          = pathWrites base cfg
            ++ [Op.write (base + registers.PATH_PAUSE_TIME_OFFSET) cfg.pause_time]
      ∧ (Sync.apply_path_config cfg).res okEnv = .ok ()) := by
  constructor <;> intro hp <;>
    refine ⟨?_, ?_, ?_, ?_⟩ <;>
    simp [Async.apply_path_config, Sync.apply_path_config,
      Async.configure_path_motion, Sync.configure_path_motion,
      Async.set_path_position, Sync.set_path_position,
      Async.set_path_velocity, Sync.set_path_velocity,
      Async.set_path_acceleration, Sync.set_path_acceleration,
      Async.set_path_deceleration, Sync.set_path_deceleration,
      Async.set_path_pause_time, Sync.set_path_pause_time,
      Async.write_register, Sync.write_register, hb, hp,
      M.bind_def, M.pure_def, M.tr, M.res, M.run, okEnv, pathWrites]

/-- C2 witness: the claim scenario config yields the six writes, and the
same config with pause time 25 appends the pause write. -/
theorem C2_path_config_writes_witness :
    (Async.apply_path_config
        { path_id := 0, absolute_position := true, position := 5000, velocity := 300,
          acceleration := 150, deceleration := 150, pause_time := 0 }).tr okEnv
      = pathWrites 0x6200
          { path_id := 0, absolute_position := true, position := 5000, velocity := 300,
            acceleration := 150, deceleration := 150, pause_time := 0 }
    ∧ (Async.apply_path_config
        { path_id := 0, absolute_position := true, position := 5000, velocity := 300,
          acceleration := 150, deceleration := 150, pause_time := 25 }).tr okEnv
      = pathWrites 0x6200
          { path_id := 0, absolute_position := true, position := 5000, velocity := 300,
            acceleration := 150, deceleration := 150, pause_time := 25 }
        ++ [Op.write (0x6200 + registers.PATH_PAUSE_TIME_OFFSET) 25] :=
  ⟨((C2_path_config_writes
      { path_id := 0, absolute_position := true, position := 5000, velocity := 300,
        acceleration := 150, deceleration := 150, pause_time := 0 } 0x6200 rfl).1 rfl).1,
   ((C2_path_config_writes
      { path_id := 0, absolute_position := true, position := 5000, velocity := 300,
        acceleration := 150, deceleration := 150, pause_time := 25 } 0x6200 rfl).2
      (by decide)).1⟩

/-- C5: with a valid input number, `apply_homing_config` issues the
eleven writes digital-input configuration, homing mode, auxiliary fixed
register, home position high then low, stop position high then low, high
velocity, low velocity, acceleration, deceleration, in that order; when
the channel fails the transaction of index k (the k+1st write), exactly
the first k writes are in effect, nothing is rolled back, and the
composite call returns that failure.  Holds for both clients. -/
theorem C5_homing_sequence (cfg : HomingConfig)
    (h1 : 1 ≤ cfg.input_no) (h7 : cfg.input_no ≤ 7) :
    ((Async.apply_homing_config cfg).tr okEnv = homingWrites cfg
      ∧ (Async.apply_homing_config cfg).res okEnv = .ok ()
      ∧ (Sync.apply_homing_config cfg).tr okEnv = homingWrites cfg
      ∧ (Sync.apply_homing_config cfg).res okEnv = .ok ())
    ∧ ∀ k, k < 11 →
      (Async.apply_homing_config cfg).tr (failAt k) = (homingWrites cfg).take k
      ∧ (Async.apply_homing_config cfg).res (failAt k) = .error (.modbus k)
      ∧ (Sync.apply_homing_config cfg).tr (failAt k) = (homingWrites cfg).take k
      ∧ (Sync.apply_homing_config cfg).res (failAt k) = .error (.modbus k) := by
  constructor
  · refine ⟨?_, ?_, ?_, ?_⟩ <;>
      simp [Async.apply_homing_config, Sync.apply_homing_config,
        Async.configure_input, Sync.configure_input,
        Async.configure_homing, Sync.configure_homing,
        Async.set_homing_position, Sync.set_homing_position,
        Async.set_homing_stop_position, Sync.set_homing_stop_position,
        Async.set_homing_high_velocity, Sync.set_homing_high_velocity,
        Async.set_homing_low_velocity, Sync.set_homing_low_velocity,
        Async.set_homing_acceleration, Sync.set_homing_acceleration,
        Async.set_homing_deceleration, Sync.set_homing_deceleration,
        Async.write_register, Sync.write_register, h1, h7,
        M.bind_def, M.pure_def, M.tr, M.res, M.run, okEnv, homingWrites]
  · intro k hk
    interval_cases k <;> refine ⟨?_, ?_, ?_, ?_⟩ <;>
      simp [Async.apply_homing_config, Sync.apply_homing_config,
        Async.configure_input, Sync.configure_input,
        Async.configure_homing, Sync.configure_homing,
        Async.set_homing_position, Sync.set_homing_position,
        Async.set_homing_stop_position, Sync.set_homing_stop_position,
        Async.set_homing_high_velocity, Sync.set_homing_high_velocity,
        Async.set_homing_low_velocity, Sync.set_homing_low_velocity,
        Async.set_homing_acceleration, Sync.set_homing_acceleration,
        Async.set_homing_deceleration, Sync.set_homing_deceleration,
        Async.write_register, Sync.write_register, h1, h7,
        M.bind_def, M.pure_def, M.tr, M.res, M.run, failAt, homingWrites]

/-- C5 witness: a failure on the third write (transaction index 2)
leaves exactly the first two writes of the default homing configuration
in effect and surfaces that failure. -/
theorem C5_homing_sequence_witness :
    (Async.apply_homing_config
        { input_no := 1, function := DigitalInputFunction.Org, normally_closed := false,
          direction := Direction.Clockwise, move_to_pos_after := true,
          method := HomingMethod.HomeSwitch, position := 0, position_stop := 0,
          high_velocity := 100, low_velocity := 50,
          acceleration := 100, deceleration := 100 }).tr (failAt 2)
      = (homingWrites
          { input_no := 1, function := DigitalInputFunction.Org, normally_closed := false,
            direction := Direction.Clockwise, move_to_pos_after := true,
            method := HomingMethod.HomeSwitch, position := 0, position_stop := 0,
            high_velocity := 100, low_velocity := 50,
            acceleration := 100, deceleration := 100 }).take 2
    ∧ (Async.apply_homing_config
        { input_no := 1, function := DigitalInputFunction.Org, normally_closed := false,
          direction := Direction.Clockwise, move_to_pos_after := true,
          method := HomingMethod.HomeSwitch, position := 0, position_stop := 0,
          high_velocity := 100, low_velocity := 50,
          acceleration := 100, deceleration := 100 }).res (failAt 2)
      = .error (.modbus 2) :=
  ⟨((C5_homing_sequence
      { input_no := 1, function := DigitalInputFunction.Org, normally_closed := false,
        direction := Direction.Clockwise, move_to_pos_after := true,
        method := HomingMethod.HomeSwitch, position := 0, position_stop := 0,
        high_velocity := 100, low_velocity := 50,
        acceleration := 100, deceleration := 100 } (by decide) (by decide)).2
      2 (by decide)).1,
   ((C5_homing_sequence
      { input_no := 1, function := DigitalInputFunction.Org, normally_closed := false,
        direction := Direction.Clockwise, move_to_pos_after := true,
        method := HomingMethod.HomeSwitch, position := 0, position_stop := 0,
        high_velocity := 100, low_velocity := 50,
        acceleration := 100, deceleration := 100 } (by decide) (by decide)).2
      2 (by decide)).2.1⟩

/-- C9: each read-modify-write helper on the PR global control register
reads the register once, then writes back the very word it read with
only its designated bit changed — bit 0 for the CTRG effective edge, bit
1 for soft limit control, bit 2 for homing on power up, bit 4 for the
CTRG trigger type — all other bits of the 16-bit word unchanged.  Holds
for both clients. -/
theorem C9_rmw_frame (v : Nat) (hv : v < 2 ^ 16) (b : Bool) :
    ((Async.set_ctrg_effective_edge b).tr (readEnv v)
        = [Op.read registers.PR_GLOBAL_CTRL_FCT 1,
           Op.write registers.PR_GLOBAL_CTRL_FCT (rmwWord 0 b v)]
      ∧ (Async.set_ctrg_effective_edge b).res (readEnv v) = .ok ()
      ∧ (Sync.set_ctrg_effective_edge b).tr (readEnv v)
        = [Op.read registers.PR_GLOBAL_CTRL_FCT 1,
           Op.write registers.PR_GLOBAL_CTRL_FCT (rmwWord 0 b v)]
      ∧ (rmwWord 0 b v).testBit 0 = b
      ∧ ∀ j, j ≠ 0 → (rmwWord 0 b v).testBit j = v.testBit j)
    ∧ ((Async.soft_limit_control b).tr (readEnv v)
        = [Op.read registers.PR_GLOBAL_CTRL_FCT 1,
           Op.write registers.PR_GLOBAL_CTRL_FCT (rmwWord 1 b v)]
      ∧ (Async.soft_limit_control b).res (readEnv v) = .ok ()
      ∧ (Sync.soft_limit_control b).tr (readEnv v)
        = [Op.read registers.PR_GLOBAL_CTRL_FCT 1,
           Op.write registers.PR_GLOBAL_CTRL_FCT (rmwWord 1 b v)]
      ∧ (rmwWord 1 b v).testBit 1 = b
      ∧ ∀ j, j ≠ 1 → (rmwWord 1 b v).testBit j = v.testBit j)
    ∧ ((Async.homing_power_up_control b).tr (readEnv v)
        = [Op.read registers.PR_GLOBAL_CTRL_FCT 1,
           Op.write registers.PR_GLOBAL_CTRL_FCT (rmwWord 2 b v)]
      ∧ (Async.homing_power_up_control b).res (readEnv v) = .ok ()
      ∧ (Sync.homing_power_up_control b).tr (readEnv v)
        = [Op.read registers.PR_GLOBAL_CTRL_FCT 1,
           Op.write registers.PR_GLOBAL_CTRL_FCT (rmwWord 2 b v)]
      ∧ (rmwWord 2 b v).testBit 2 = b
      ∧ ∀ j, j ≠ 2 → (rmwWord 2 b v).testBit j = v.testBit j)
    ∧ ((Async.set_ctrg_trigger_type b).tr (readEnv v)
        = [Op.read registers.PR_GLOBAL_CTRL_FCT 1,
           Op.write registers.PR_GLOBAL_CTRL_FCT (rmwWord 4 b v)]
      ∧ (Async.set_ctrg_trigger_type b).res (readEnv v) = .ok ()
      ∧ (Sync.set_ctrg_trigger_type b).tr (readEnv v)
        = [Op.read registers.PR_GLOBAL_CTRL_FCT 1,
           Op.write registers.PR_GLOBAL_CTRL_FCT (rmwWord 4 b v)]
      ∧ (rmwWord 4 b v).testBit 4 = b
      ∧ ∀ j, j ≠ 4 → (rmwWord 4 b v).testBit j = v.testBit j) := by
  refine ⟨⟨?_, ?_, ?_, (rmwWord_testBit 0 (by decide) b v hv).1,
            (rmwWord_testBit 0 (by decide) b v hv).2⟩,
          ⟨?_, ?_, ?_, (rmwWord_testBit 1 (by decide) b v hv).1,
            (rmwWord_testBit 1 (by decide) b v hv).2⟩,
          ⟨?_, ?_, ?_, (rmwWord_testBit 2 (by decide) b v hv).1,
            (rmwWord_testBit 2 (by decide) b v hv).2⟩,
          ⟨?_, ?_, ?_, (rmwWord_testBit 4 (by decide) b v hv).1,
            (rmwWord_testBit 4 (by decide) b v hv).2⟩⟩ <;>
  cases b <;>
    simp [Async.set_ctrg_effective_edge, Sync.set_ctrg_effective_edge,
      Async.soft_limit_control, Sync.soft_limit_control,
      Async.homing_power_up_control, Sync.homing_power_up_control,
      Async.set_ctrg_trigger_type, Sync.set_ctrg_trigger_type,
      Async.read_registers, Async.write_register,
      Sync.read_registers, Sync.write_register,
      M.bind_def, M.pure_def, M.tr, M.res, M.run, readEnv, rmwWord]

/-- C9 witness: setting the trigger-type bit of the word 0xABCD writes
back 0xABDD, whose bit 3 (and every bit other than 4) agrees with the
word read. -/
theorem C9_rmw_frame_witness :
    (Async.set_ctrg_trigger_type true).tr (readEnv 0xABCD)
      = [Op.read registers.PR_GLOBAL_CTRL_FCT 1,
         Op.write registers.PR_GLOBAL_CTRL_FCT (rmwWord 4 true 0xABCD)]
    ∧ (rmwWord 4 true 0xABCD).testBit 4 = true
    ∧ (rmwWord 4 true 0xABCD).testBit 3 = (0xABCD : Nat).testBit 3 :=
  ⟨(C9_rmw_frame 0xABCD (by decide) true).2.2.2.1,
   (C9_rmw_frame 0xABCD (by decide) true).2.2.2.2.2.2.1,
   (C9_rmw_frame 0xABCD (by decide) true).2.2.2.2.2.2.2 3 (by decide)⟩

/-- C8: every public operation of the asynchronous client equals, as a
channel computation, the corresponding operation of the blocking client
at every argument: identical register operations (addresses, values,
order, via equal traces) and equal results in every environment.  The
two source files differ only in how suspension is expressed. -/
theorem C8_sync_async_equivalence :
    (∀ (F : Type) (enc : F → Nat) (cfg : StepperConfig F),
        Async.init enc cfg = Sync.init enc cfg)
    ∧ (∀ (F : Type) (enc : F → Nat) (c : F),
        Async.set_peak_current enc c = Sync.set_peak_current enc c)
    ∧ (∀ i, Async.set_motor_inductance i = Sync.set_motor_inductance i)
    ∧ (∀ b, Async.forced_enable_by_software b = Sync.forced_enable_by_software b)
    ∧ (∀ c, Async.set_control_word c = Sync.set_control_word c)
    ∧ Async.save_param_eeprom = Sync.save_param_eeprom
    ∧ Async.param_reset = Sync.param_reset
    ∧ Async.factory_reset = Sync.factory_reset
    ∧ Async.save_mapping_eeprom = Sync.save_mapping_eeprom
    ∧ (∀ d, Async.jog_motor d = Sync.jog_motor d)
    ∧ (∀ n fn nc, Async.configure_input n fn nc = Sync.configure_input n fn nc)
    ∧ Async.get_input_status = Sync.get_input_status
    ∧ Async.get_motion_status = Sync.get_motion_status
    ∧ Async.is_path_completed = Sync.is_path_completed
    ∧ Async.is_homing_completed = Sync.is_homing_completed
    ∧ (∀ b, Async.set_ctrg_effective_edge b = Sync.set_ctrg_effective_edge b)
    ∧ (∀ b, Async.soft_limit_control b = Sync.soft_limit_control b)
    ∧ (∀ p, Async.set_soft_limit_max p = Sync.set_soft_limit_max p)
    ∧ (∀ p, Async.set_soft_limit_min p = Sync.set_soft_limit_min p)
    ∧ (∀ b, Async.homing_power_up_control b = Sync.homing_power_up_control b)
    ∧ (∀ b, Async.set_ctrg_trigger_type b = Sync.set_ctrg_trigger_type b)
    ∧ (∀ d m mth, Async.configure_homing d m mth = Sync.configure_homing d m mth)
    ∧ (∀ p, Async.set_homing_position p = Sync.set_homing_position p)
    ∧ (∀ p, Async.set_homing_stop_position p = Sync.set_homing_stop_position p)
    ∧ (∀ r, Async.set_homing_high_velocity r = Sync.set_homing_high_velocity r)
    ∧ (∀ r, Async.set_homing_low_velocity r = Sync.set_homing_low_velocity r)
    ∧ (∀ a, Async.set_homing_acceleration a = Sync.set_homing_acceleration a)
    ∧ (∀ d, Async.set_homing_deceleration d = Sync.set_homing_deceleration d)
    ∧ (∀ cfg, Async.apply_homing_config cfg = Sync.apply_homing_config cfg)
    ∧ (∀ c, Async.set_pr_control c = Sync.set_pr_control c)
    ∧ Async.start_homing = Sync.start_homing
    ∧ (∀ id, Async.start_path id = Sync.start_path id)
    ∧ Async.stop_motor = Sync.stop_motor
    ∧ Async.manual_zero = Sync.manual_zero
    ∧ (∀ pid mt i o a j jt,
        Async.configure_path_motion pid mt i o a j jt
          = Sync.configure_path_motion pid mt i o a j jt)
    ∧ (∀ pid p, Async.set_path_position pid p = Sync.set_path_position pid p)
    ∧ (∀ pid r, Async.set_path_velocity pid r = Sync.set_path_velocity pid r)
    ∧ (∀ pid a, Async.set_path_acceleration pid a = Sync.set_path_acceleration pid a)
    ∧ (∀ pid d, Async.set_path_deceleration pid d = Sync.set_path_deceleration pid d)
    ∧ (∀ pid ms, Async.set_path_pause_time pid ms = Sync.set_path_pause_time pid ms)
    ∧ (∀ cfg, Async.apply_path_config cfg = Sync.apply_path_config cfg)
    ∧ Async.get_version = Sync.get_version
    ∧ Async.get_current_alarm = Sync.get_current_alarm :=
  ⟨fun _ _ _ => rfl, fun _ _ _ => rfl, fun _ => rfl, fun _ => rfl, fun _ => rfl,
   rfl, rfl, rfl, rfl, fun _ => rfl, fun _ _ _ => rfl, rfl, rfl, rfl, rfl,
   fun _ => rfl, fun _ => rfl, fun _ => rfl, fun _ => rfl, fun _ => rfl,
   fun _ => rfl, fun _ _ _ => rfl, fun _ => rfl, fun _ => rfl, fun _ => rfl,
   fun _ => rfl, fun _ => rfl, fun _ => rfl, fun _ => rfl, fun _ => rfl, rfl,
   fun _ => rfl, rfl, rfl, fun _ _ _ _ _ _ _ => rfl, fun _ _ => rfl,
   fun _ _ => rfl, fun _ _ => rfl, fun _ _ => rfl, fun _ _ => rfl,
   fun _ => rfl, rfl, rfl⟩

end Em2rs
